import Mathlib

/-!
Verification of the eigenriver backend (voice-command gateway for an RTS game).

Shallow embedding of the Python sources under `backend/app/`:
* `services/cerebras.py` — schema-constrained generator with one-shot repair;
* `routes/intent.py` — strict intent validation and the `/intent` route;
* `schemas/intent_schema.py` — permissive (flexible) intent schema;
* `services/asr_stream.py` — batch (Whisper) transcription engine;
* `services/asr_vosk.py` — streaming (Vosk) recognizer engine;
* `routes/asr_ws.py` — per-connection session state machine.

External collaborators (the HTTP transport, `json.loads`, the transcription
models, the Vosk recognizer) are modelled as explicit oracle inputs: a
function argument stands for the library call, and the remote model's HTTP
responses are inputs to the embedded function.  JSON numbers are modelled as
integers; no claim below depends on non-integral numerics.
-/

namespace Eigenriver

/-- JSON values as produced by `json.loads` (numbers restricted to integers). -/
inductive Json where
  | null : Json
  | bool (b : Bool) : Json
  | num (n : Int) : Json
  | str (s : String) : Json
  | arr (xs : List Json) : Json
  | obj (fields : List (String × Json)) : Json
deriving Inhabited

/-- Lookup `d.get(k)` on a decoded JSON object: first binding of `k`, if any. -/
def jsonGet (fields : List (String × Json)) (k : String) : Option Json :=
  match fields with
  | [] => none
  | (k', v) :: rest => if k' = k then some v else jsonGet rest k

/-- A raised Python exception, as a (type name, message) pair.  Both upstream
failure branches of `_post_chat` raise `RuntimeError`; the type name is kept
so that "distinguishable by kind" is expressible. -/
structure PyError where
  typeName : String
  message : String
deriving Repr, DecidableEq

/-- The outcome of the HTTP POST inside `_post_chat`, an oracle input:
`ok content` for a 2xx response whose decoded body yields the assistant
message `content`; `err status body` when `raise_for_status` fires (non-2xx). -/
inductive HttpResp where
  | ok (content : String) : HttpResp
  | err (status : Nat) (body : String) : HttpResp
deriving Repr, DecidableEq

/-- The message raised on HTTP 429 (cerebras.py line 29). -/
def rateLimitMsg : String :=
  "Cerebras API rate limit reached. Please wait a moment before trying again."

/-- The message raised on any other non-2xx status (cerebras.py line 30):
`f"Cerebras API error: {status_code} {text}"`. -/
def upstreamMsg (status : Nat) (body : String) : String :=
  "Cerebras API error: " ++ (toString status ++ (" " ++ body))

/-- Embeds `_post_chat` (cerebras.py lines 10–33), given the transport's response:
on success return the content; on a non-2xx status raise `RuntimeError`,
with a dedicated message when the status is 429. -/
def postChat (resp : HttpResp) : Except PyError String :=
  match resp with
  | .ok content => .ok content
  | .err status body =>
      if status = 429 then
        .error ⟨"RuntimeError", rateLimitMsg⟩
      else
        .error ⟨"RuntimeError", upstreamMsg status body⟩

/-- The exception kind of a call outcome, `none` when no exception was raised. -/
def errKind : Except PyError String → Option String
  | .ok _ => none
  | .error e => some e.typeName

/-- Library oracles used by `generate_intent_json`:
`tryParse` is the `try_parse` wrapper around `json.loads` (cerebras.py
lines 169–173), `validate` is whether `schema_model.model_validate` succeeds
(line 178). -/
structure GenEnv where
  tryParse : String → Option Json
  validate : Json → Bool

/-- Lines 175–181 of cerebras.py: parse the content, then null out the parse
when schema validation fails, so `some p` survives only for a response that
is valid JSON and validates. -/
def genParsedValid (env : GenEnv) (content : String) : Option Json :=
  match env.tryParse content with
  | some p => if env.validate p then some p else none
  | none => none

/-- The exception `RuntimeError("Model did not return valid JSON")` (cerebras.py line 185). -/
def notValidJsonError : PyError :=
  ⟨"RuntimeError", "Model did not return valid JSON"⟩

/-- The exception `RuntimeError("Repair failed: non-JSON output")` (cerebras.py line 207). -/
def repairFailedError : PyError :=
  ⟨"RuntimeError", "Repair failed: non-JSON output"⟩

/-- Result of one `generate_intent_json` request: the returned JSON object or
the raised exception, together with how many `_post_chat` calls were made. -/
structure GenResult where
  result : Except PyError Json
  calls : Nat

/-- Embeds `generate_intent_json` (cerebras.py lines 94–209).  `resp1` is the
transport's response to the first chat call, `resp2` to the repair call (used
only when the repair call is issued).  Prompt construction does not influence
control flow and is not modelled. -/
def generate_intent_json (env : GenEnv) (enforce_schema : Bool)
    (resp1 resp2 : HttpResp) : GenResult :=
  match postChat resp1 with
  | .error e => ⟨.error e, 1⟩
  | .ok content =>
      match genParsedValid env content with
      | some p => ⟨.ok p, 1⟩
      | none =>
          if !enforce_schema then
            -- `parsed` is `None` on every path reaching here (cerebras.py 181)
            ⟨.error notValidJsonError, 1⟩
          else
            match postChat resp2 with
            | .error e => ⟨.error e, 2⟩
            | .ok repaired =>
                match env.tryParse repaired with
                | none => ⟨.error repairFailedError, 2⟩
                | some p2 => ⟨.ok p2, 2⟩

/-! ### Strict intent validation (`routes/intent.py`) -/

/-- The `Target` literal vocabulary (intent.py lines 15–22). -/
def TargetVocab : List String :=
  ["alpha", "bravo", "charlie", "all", "carriers", "interceptors"]

/-- The `Action` literal vocabulary (intent.py lines 24–40). -/
def ActionVocab : List String :=
  ["flank", "pincer", "hold", "advance", "screen", "intercept", "retreat",
   "patrol", "rally", "escort", "attack", "defend", "regroup", "focus_fire",
   "deploy"]

/-- The `Formation` literal vocabulary (intent.py line 42). -/
def FormationVocab : List String :=
  ["none", "wall", "wedge", "sphere", "swarm", "column", "line", "diamond"]

/-- The `Direction` literal vocabulary (intent.py line 43). -/
def DirectionVocab : List String :=
  ["left", "right", "center", "north", "south", "east", "west", "bearing",
   "vector", "none", "towards_enemies", "away_from_enemies"]

/-- Decimal value of a digit character, `none` on a non-digit. -/
def charDigit (c : Char) : Option Nat :=
  if c.isDigit then some (c.toNat - '0'.toNat) else none

/-- Left-to-right decimal accumulation over a character list, failing on
any non-digit. -/
def digitsVal : List Char → Nat → Option Nat
  | [], acc => some acc
  | c :: cs, acc =>
      match charDigit c with
      | some d => digitsVal cs (acc * 10 + d)
      | none => none

/-- Integer reading of a decimal string (optionally `-`-signed), as
`int(s)` accepts it; `none` on anything else. -/
def strToIntCoerce (s : String) : Option Int :=
  match s.data with
  | [] => none
  | '-' :: [] => none
  | '-' :: c :: cs => (digitsVal (c :: cs) 0).map (fun n => -(n : Int))
  | cs => digitsVal cs 0

/-- Pydantic lax validation of an `int` field: a JSON number, or the
coercion of a numeric string. -/
def pyInt : Json → Option Int
  | .num n => some n
  | .str s => strToIntCoerce s
  | _ => none

/-- A JSON string field. -/
def asStr : Json → Option String
  | .str s => some s
  | _ => none

/-- A JSON array of strings. -/
def asStrList : Json → Option (List String)
  | .arr xs => xs.mapM asStr
  | _ => none

/-- A `Tuple[float, float, float]` field: a JSON array of exactly three
numbers. -/
def asTriple : Json → Option (Int × Int × Int)
  | .arr [a, b, c] => do
      let x ← pyInt a
      let y ← pyInt b
      let z ← pyInt c
      pure (x, y, z)
  | _ => none

/-- The `Zone` model (intent.py lines 46–49): `type` must be the literal `"sphere"`,
`center` a 3-tuple, `r` a positive number. -/
structure Zone where
  center : Int × Int × Int
  r : Int
deriving Repr, DecidableEq

/-- Validate a `Zone` value (intent.py lines 46–49). -/
def validateZone : Json → Option Zone
  | .obj fs =>
      match jsonGet fs "type", (jsonGet fs "center").bind asTriple,
            (jsonGet fs "r").bind pyInt with
      | some (.str "sphere"), some c, some r =>
          if 0 < r then some ⟨c, r⟩ else none
      | _, _, _ => none
  | _ => none

/-- The `SingleIntent` model (intent.py lines 52–69): the strict single-command model.
`targets`, `action`, `formation`, `direction`, `speed` are required; `path`,
`zone`, `deployCount` are optional. -/
structure SingleIntent where
  targets : List String
  action : String
  formation : String
  direction : String
  speed : Int
  path : Option (List (Int × Int × Int))
  zone : Option Zone
  deployCount : Option Int
deriving Repr, DecidableEq

/-- The optional `path` field with its `valid_path` validator (intent.py
lines 58, 62–69): absent or `null` is fine; a present list must consist of
3-tuples and be non-empty.  The outer `none` signals a validation error. -/
def parsePathField (fs : List (String × Json)) :
    Option (Option (List (Int × Int × Int))) :=
  match jsonGet fs "path" with
  | none => some none
  | some .null => some none
  | some (.arr xs) =>
      match xs.mapM asTriple with
      | some ps => if ps.isEmpty then none else some (some ps)
      | none => none
  | some _ => none

/-- The optional `zone` field (intent.py line 59). -/
def parseZoneField (fs : List (String × Json)) : Option (Option Zone) :=
  match jsonGet fs "zone" with
  | none => some none
  | some .null => some none
  | some v => (validateZone v).map some

/-- The optional `deployCount` field, `ge=1, le=10` (intent.py line 60). -/
def parseDeployCountField (fs : List (String × Json)) : Option (Option Int) :=
  match jsonGet fs "deployCount" with
  | none => some none
  | some .null => some none
  | some v =>
      match pyInt v with
      | some n => if 1 ≤ n ∧ n ≤ 10 then some (some n) else none
      | none => none

/-- Embeds `SingleIntent.model_validate` (intent.py lines 52–69).  On failure the
error carries the names of the offending fields, mirroring pydantic's
field-level error locations. -/
def validateSingle (j : Json) : Except (List String) SingleIntent :=
  match j with
  | .obj fs =>
      let tgt : Option (List String) :=
        match (jsonGet fs "targets").bind asStrList with
        | some ts => if ts.all (fun t => TargetVocab.contains t) then some ts else none
        | none => none
      let act : Option String :=
        match (jsonGet fs "action").bind asStr with
        | some a => if ActionVocab.contains a then some a else none
        | none => none
      let frm : Option String :=
        match (jsonGet fs "formation").bind asStr with
        | some f => if FormationVocab.contains f then some f else none
        | none => none
      let dir : Option String :=
        match (jsonGet fs "direction").bind asStr with
        | some d => if DirectionVocab.contains d then some d else none
        | none => none
      let spd : Option Int :=
        match (jsonGet fs "speed").bind pyInt with
        | some n => if 0 ≤ n ∧ n ≤ 10 then some n else none
        | none => none
      match tgt, act, frm, dir, spd, parsePathField fs, parseZoneField fs,
            parseDeployCountField fs with
      | some ts, some a, some f, some d, some n, some p, some z, some c =>
          .ok ⟨ts, a, f, d, n, p, z, c⟩
      | _, _, _, _, _, _, _, _ =>
          .error
            ((if tgt.isNone then ["targets"] else []) ++
             (if act.isNone then ["action"] else []) ++
             (if frm.isNone then ["formation"] else []) ++
             (if dir.isNone then ["direction"] else []) ++
             (if spd.isNone then ["speed"] else []) ++
             (if (parsePathField fs).isNone then ["path"] else []) ++
             (if (parseZoneField fs).isNone then ["zone"] else []) ++
             (if (parseDeployCountField fs).isNone then ["deployCount"] else []))
  | _ => .error ["input"]

/-- The `MultiIntent` model (intent.py lines 71–73): strict multi-command batch;
`type` is the required literal `"multi"`, `commands` a required list of
strict single commands. -/
structure MultiIntent where
  commands : List SingleIntent
deriving Repr, DecidableEq

/-- Embeds `MultiIntent.model_validate` (intent.py lines 71–73).  Command errors
are reported first-failure-first; pydantic's aggregation of several command
errors is not modelled. -/
def validateMulti (j : Json) : Except (List String) MultiIntent :=
  match j with
  | .obj fs =>
      match jsonGet fs "type", jsonGet fs "commands" with
      | some (.str "multi"), some (.arr cs) =>
          (cs.mapM validateSingle).map (fun ss => ⟨ss⟩)
      | some (.str "multi"), _ => .error ["commands"]
      | _, some (.arr _) => .error ["type"]
      | _, _ => .error ["type", "commands"]
  | _ => .error ["input"]

/-- The union `Intent = Union[SingleIntent, MultiIntent]` (intent.py line 77). -/
inductive Intent where
  | single (c : SingleIntent) : Intent
  | multi (m : MultiIntent) : Intent
deriving Repr, DecidableEq

/-- The dispatch test of the route (intent.py line 114):
`isinstance(raw_json, dict) and raw_json.get("type") == "multi"`. -/
def isMultiTagged (raw : Json) : Bool :=
  match raw with
  | .obj fs =>
      match jsonGet fs "type" with
      | some (.str s) => s == "multi"
      | _ => false
  | _ => false

/-- Step 3 of `post_intent` (intent.py lines 112–118): dispatch on the
multi-command discriminator, then validate with the matching strict model. -/
def validateIntent (raw : Json) : Except (List String) Intent :=
  if isMultiTagged raw then (validateMulti raw).map Intent.multi
  else (validateSingle raw).map Intent.single

/-- The `source` literal of `IntentResponse` (intent.py line 88). -/
inductive Source where
  | grammar : Source
  | llm : Source
  | repaired : Source
deriving Repr, DecidableEq

/-- Outcome of one `/intent` request: a success response, or an
`HTTPException` (502 with the upstream message, 422 with field errors). -/
inductive RouteResult where
  | success (intent : Intent) (source : Source) : RouteResult
  | upstreamError (status : Nat) (message : String) : RouteResult
  | validationError (status : Nat) (fieldErrors : List String) : RouteResult

/-- Embeds `post_intent` (intent.py lines 91–121): run the generator with
`schema_model = SingleIntent` (so the generator's validation oracle is
strict single-command validation), turn a raised `RuntimeError` into a 502,
then dispatch-validate and answer with `source = "llm"`, or a 422 on
validation failure. -/
def post_intent (tryParse : String → Option Json) (enforce_schema : Bool)
    (resp1 resp2 : HttpResp) : RouteResult :=
  let g := generate_intent_json
    ⟨tryParse, fun j => (validateSingle j).isOk⟩ enforce_schema resp1 resp2
  match g.result with
  | .error e => .upstreamError 502 e.message
  | .ok raw =>
      match validateIntent raw with
      | .ok intent => .success intent Source.llm
      | .error errs => .validationError 422 errs

/-! ### Permissive intent schema (`schemas/intent_schema.py`) -/

/-- The `IntentCommand` model (intent_schema.py lines 11–48): every field optional,
`speed` bounded 0–10, `deployCount ≥ 1`, extra fields allowed and kept. -/
structure IntentCommand where
  targets : Option (List String) := none
  action : Option String := none
  formation : Option String := none
  direction : Option String := none
  speed : Option Int := none
  path : Option (List (List Int)) := none
  zone : Option (List (String × Json)) := none
  deployCount : Option Int := none
  deployFormation : Option String := none
  waypointTargets : Option (List String) := none
  cycleWaypoints : Option Bool := none
  pathCycle : Option Bool := none
  relativeMove : Option (List (String × Json)) := none
  relativeMovement : Option (List (String × Json)) := none
  helpTarget : Option String := none
  targetSquad : Option String := none
  maintainSpacing : Option Bool := none
  extraFields : List (String × Json) := []

/-- A JSON boolean field. -/
def asBool : Json → Option Bool
  | .bool b => some b
  | _ => none

/-- A JSON object field (`Dict[str, Any]`). -/
def asObj : Json → Option (List (String × Json))
  | .obj fs => some fs
  | _ => none

/-- A `List[List[float]]` field. -/
def asListOfNumLists : Json → Option (List (List Int))
  | .arr xs => xs.mapM (fun x =>
      match x with
      | .arr ys => ys.mapM pyInt
      | _ => none)
  | _ => none

/-- An optional pydantic field: absent or `null` yields `none`; a present
value must parse, else the error names the field. -/
def optField (fs : List (String × Json)) (name : String)
    (p : Json → Option α) : Except (List String) (Option α) :=
  match jsonGet fs name with
  | none => .ok none
  | some .null => .ok none
  | some v =>
      match p v with
      | some a => .ok (some a)
      | none => .error [name]

/-- The declared field names of `IntentCommand` (intent_schema.py). -/
def knownCommandKeys : List String :=
  ["targets", "action", "formation", "direction", "speed", "path", "zone",
   "deployCount", "deployFormation", "waypointTargets", "cycleWaypoints",
   "pathCycle", "relativeMove", "relativeMovement", "helpTarget",
   "targetSquad", "maintainSpacing"]

/-- Embeds `IntentCommand.model_validate` (intent_schema.py lines 11–48).  Field
errors are reported first-failure-first. -/
def validateIntentCommand (j : Json) : Except (List String) IntentCommand :=
  match j with
  | .obj fs => do
      let tg ← optField fs "targets" asStrList
      let ac ← optField fs "action" asStr
      let fm ← optField fs "formation" asStr
      let dr ← optField fs "direction" asStr
      let sp ← optField fs "speed" (fun v =>
        (pyInt v).bind (fun n => if 0 ≤ n ∧ n ≤ 10 then some n else none))
      let pa ← optField fs "path" asListOfNumLists
      let zo ← optField fs "zone" asObj
      let dc ← optField fs "deployCount" (fun v =>
        (pyInt v).bind (fun n => if 1 ≤ n then some n else none))
      let df ← optField fs "deployFormation" asStr
      let wt ← optField fs "waypointTargets" asStrList
      let cw ← optField fs "cycleWaypoints" asBool
      let pc ← optField fs "pathCycle" asBool
      let rm ← optField fs "relativeMove" asObj
      let rv ← optField fs "relativeMovement" asObj
      let ht ← optField fs "helpTarget" asStr
      let ts ← optField fs "targetSquad" asStr
      let ms ← optField fs "maintainSpacing" asBool
      pure
        { targets := tg, action := ac, formation := fm, direction := dr,
          speed := sp, path := pa, zone := zo, deployCount := dc,
          deployFormation := df, waypointTargets := wt, cycleWaypoints := cw,
          pathCycle := pc, relativeMove := rm, relativeMovement := rv,
          helpTarget := ht, targetSquad := ts, maintainSpacing := ms,
          extraFields := fs.filter (fun kv => !(knownCommandKeys.contains kv.1)) }
  | _ => .error ["input"]

/-- Permissive `MultiIntent` (intent_schema.py lines 51–57): `type` defaults
to `"multi"` (if present it must be that literal), `commands` is a required
list of permissive commands, extras allowed. -/
structure FlexMultiIntent where
  commands : List IntentCommand
  extraFields : List (String × Json) := []

/-- Permissive `MultiIntent.model_validate` (intent_schema.py lines 51–57). -/
def validateFlexMulti (j : Json) : Except (List String) FlexMultiIntent :=
  match j with
  | .obj fs =>
      let tyOk : Bool :=
        match jsonGet fs "type" with
        | none => true
        | some (.str s) => s == "multi"
        | some _ => false
      if tyOk then
        match jsonGet fs "commands" with
        | some (.arr cs) =>
            (cs.mapM validateIntentCommand).map (fun l =>
              ⟨l, fs.filter (fun kv => !(kv.1 == "type" || kv.1 == "commands"))⟩)
        | some _ => .error ["commands"]
        | none => .error ["commands"]
      else .error ["type"]
  | _ => .error ["input"]

/-- The union `FlexibleIntent = Union[IntentCommand, MultiIntent]`
(intent_schema.py line 61). -/
inductive FlexibleIntent where
  | single (c : IntentCommand) : FlexibleIntent
  | multi (m : FlexMultiIntent) : FlexibleIntent

/-- The all-defaults `IntentCommand()` — the "empty/default command". -/
def emptyIntentCommand : IntentCommand := {}

/-- Outcome of the permissive intent route: the intent handed to the caller
and the raw payload recorded for diagnostics when validation failed. -/
structure PermissiveOutcome where
  intent : FlexibleIntent
  logged : Option Json

/-- The permissive validator's dispatch (spec §4.5): an object carrying the
multi-command discriminator tag is validated as an ordered list of commands
against the permissive single-command shape; otherwise as one permissive
single command. -/
def validateFlexible (raw : Json) : Except (List String) FlexibleIntent :=
  if isMultiTagged raw then (validateFlexMulti raw).map FlexibleIntent.multi
  else (validateIntentCommand raw).map FlexibleIntent.single

/-- Modelled from the spec: the permissive intent-route variant (§4.5, §9 of
the spec) is not among the source files — only its schema module
`intent_schema.py` is.  Per the spec's words: validate permissively, and on
validation failure log the failure with the raw payload and return an
empty/default command as a safe fallback rather than failing the request. -/
def post_intent_permissive (raw : Json) : PermissiveOutcome :=
  match validateFlexible raw with
  | .ok fi => ⟨fi, none⟩
  | .error _ => ⟨.single emptyIntentCommand, some raw⟩

/-! ### Batch transcription engine (`services/asr_stream.py`) -/

/-- The `AsrEngine` state (asr_stream.py lines 48–53): sample rate, language, and the
append-only PCM byte buffer (a fresh empty `bytearray` on construction).
The buffer lock serializes access; message handling itself is sequential
per connection, so the embedding is the lock-free sequentialization. -/
structure AsrEngine where
  sample_rate : Int
  language : String
  pcm : List Nat

/-- Embeds `AsrEngine.__init__` (asr_stream.py lines 49–53): fresh empty buffer. -/
def AsrEngine.new (sample_rate : Int) (language : String) : AsrEngine :=
  ⟨sample_rate, language, []⟩

/-- Embeds `AsrEngine.push_audio` (asr_stream.py lines 55–57): append the bytes. -/
def AsrEngine.push_audio (e : AsrEngine) (bytes : List Nat) : AsrEngine :=
  { e with pcm := e.pcm ++ bytes }

/-- Result of `finalize_segment`: the final text, the engine state after the
buffer clear, and how many transcription-model calls were made (0 or 1). -/
structure FinalizeOut where
  text : String
  engine : AsrEngine
  modelCalls : Nat

/-- Embeds `AsrEngine.finalize_segment` (asr_stream.py lines 84–103): snapshot and
clear the buffer; an empty snapshot returns `""` with no model call,
otherwise the whole segment goes through the transcription model.  The
oracle `T` stands for the PCM decode + `model.transcribe` + join/strip of
lines 92–103. -/
def AsrEngine.finalize_segment (T : List Nat → String) (e : AsrEngine) :
    FinalizeOut :=
  let snapshot := e.pcm
  let e' := { e with pcm := [] }
  if snapshot.isEmpty then ⟨"", e', 0⟩
  else ⟨T snapshot, e', 1⟩

/-! ### Session state machine (`routes/asr_ws.py`) -/

/-- One incoming WebSocket message, after the loop's own decoding
(asr_ws.py lines 29–44): a binary PCM frame; a text frame whose JSON
decoded to `j`; or a frame the loop silently skips (empty text or a
`json.JSONDecodeError`). -/
inductive ClientMsg where
  | binary (bytes : List Nat) : ClientMsg
  | ctrl (j : Json) : ClientMsg
  | skipped : ClientMsg

/-- A reply sent by the server (asr_ws.py lines 57–65). -/
inductive ServerReply where
  | ready : ServerReply
  | final (text : String) : ServerReply
  | error (msg : String) : ServerReply
deriving Repr, DecidableEq

/-- Connection state: the optional engine reference (asr_ws.py line 26).
The deployment is modelled with the batch (Whisper) engine — backend
selection is per-deployment, and the claims address the batch variant. -/
structure WsState where
  engine : Option AsrEngine

/-- Effect of handling one message: the new state, the reply (if any), and
the number of transcription-model calls made while handling it. -/
structure StepOut where
  state : WsState
  reply : Option ServerReply
  modelCalls : Nat

/-- Embeds `int(obj.get("sample_rate", 16000))` (asr_ws.py line 50). -/
def getSampleRate (j : Json) : Int :=
  match j with
  | .obj fs =>
      match (jsonGet fs "sample_rate").bind pyInt with
      | some n => n
      | none => 16000
  | _ => 16000

/-- Embeds `str(obj.get("language", "en"))` (asr_ws.py line 51). -/
def getLanguage (j : Json) : String :=
  match j with
  | .obj fs =>
      match jsonGet fs "language" with
      | some (.str s) => s
      | _ => "en"
  | _ => "en"

/-- Rendering of `obj.get("type")` inside `f"unknown type: {mtype}"`
(asr_ws.py line 65). -/
def renderMType (j : Json) : String :=
  match j with
  | .obj fs =>
      match jsonGet fs "type" with
      | some (.str s) => s
      | some _ => "<non-string>"
      | none => "None"
  | _ => "None"

/-- The `mtype` dispatch value: `obj.get("type")` as a string, when it is
one (asr_ws.py line 46). -/
def getMType (j : Json) : Option String :=
  match j with
  | .obj fs =>
      match jsonGet fs "type" with
      | some (.str s) => some s
      | _ => none
  | _ => none

/-- One iteration of the `ws_asr` receive loop (asr_ws.py lines 28–65).
On "start", an existing engine is only `close()`d — a no-op that neither
finalizes nor calls the model (asr_stream.py lines 105–107) — and a fresh
engine replaces it.  On "stop" the engine is finalized and the reply is the
final text; the engine reference is kept (the source does not null it). -/
def ws_step (T : List Nat → String) (s : WsState) (m : ClientMsg) : StepOut :=
  match m with
  | .binary bytes =>
      match s.engine with
      | none => ⟨s, none, 0⟩
      | some e => ⟨⟨some (e.push_audio bytes)⟩, none, 0⟩
  | .skipped => ⟨s, none, 0⟩
  | .ctrl j =>
      if getMType j = some "start" then
        ⟨⟨some (AsrEngine.new (getSampleRate j) (getLanguage j))⟩,
         some .ready, 0⟩
      else if getMType j = some "stop" then
        match s.engine with
        | none => ⟨s, some (.error "no session"), 0⟩
        | some e =>
            let f := e.finalize_segment T
            ⟨⟨some f.engine⟩, some (.final f.text), f.modelCalls⟩
      else
        ⟨s, some (.error ("unknown type: " ++ renderMType j)), 0⟩

/-- Run the receive loop over a message sequence, collecting the replies in
order and the total number of transcription-model calls. -/
def ws_run (T : List Nat → String) (s : WsState) :
    List ClientMsg → WsState × List ServerReply × Nat
  | [] => (s, [], 0)
  | m :: ms =>
      let o := ws_step T s m
      let rest := ws_run T o.state ms
      (rest.1, (o.reply.toList ++ rest.2.1), o.modelCalls + rest.2.2)

/-- The decoded `{"type":"start", "sample_rate":sr, "language":lang}`
control frame. -/
def startMsg (sr : Int) (lang : String) : ClientMsg :=
  .ctrl (.obj [("type", .str "start"), ("sample_rate", .num sr),
               ("language", .str lang)])

/-- The decoded `{"type":"stop"}` control frame. -/
def stopMsg : ClientMsg :=
  .ctrl (.obj [("type", .str "stop")])

/-! ### Streaming-recognizer engine (`services/asr_vosk.py`) -/

/-- The `VoskAsrEngine` state: the recognizer's internal decode state
(abstracted as the waveform fed since the last `Reset`) and the engine's
own PCM buffer (asr_vosk.py lines 49–66). -/
structure VoskEngine where
  recState : List Nat
  pcm : List Nat

/-- Python truthiness of a decoded JSON value (`x or ""`). -/
def pyFalsy : Json → Bool
  | .null => true
  | .bool b => !b
  | .num n => n == 0
  | .str s => s.isEmpty
  | .arr xs => xs.isEmpty
  | .obj fs => fs.isEmpty

/-- Embeds `(data.get("text") or "").strip()` (asr_vosk.py line 84): a missing key
or falsy value yields `""`; a truthy string is stripped; a truthy non-string
raises `AttributeError` at `.strip()`. -/
def extractFinalText (data : Json) : Except PyError String :=
  match data with
  | .obj fs =>
      match jsonGet fs "text" with
      | none => .ok ""
      | some v =>
          if pyFalsy v then .ok ""
          else
            match v with
            | .str s => .ok s.trim
            | _ => .error ⟨"AttributeError", "strip"⟩
  | _ => .error ⟨"AttributeError", "get"⟩

/-- Embeds `VoskAsrEngine.finalize_segment` (asr_vosk.py lines 78–89).
`finalResult` is the oracle for `rec.FinalResult()` (a JSON string computed
from the recognizer state), `tryLoads` the oracle for `json.loads` wrapped
in the `try`.  The `finally` block runs `rec.Reset()` and clears the buffer
on every path, so the resulting engine state is the same whether the body
returns text or raises. -/
def VoskEngine.finalize_segment (finalResult : List Nat → String)
    (tryLoads : String → Option Json) (e : VoskEngine) :
    Except PyError String × VoskEngine :=
  let res := finalResult e.recState
  let e' : VoskEngine := ⟨[], []⟩
  match tryLoads res with
  | none => (.error ⟨"JSONDecodeError", "Expecting value"⟩, e')
  | some data => (extractFinalText data, e')

/-! ## Claims about the schema-constrained generator -/

/-- C1: with schema enforcement enabled, when the first model response is
not parseable as JSON (or fails schema validation), exactly one repair call
is issued — two model calls in total — and if the repair output is also
unparseable as JSON, `generate_intent_json` fails with the repair-specific
error and no other. -/
theorem C1_one_shot_repair (env : GenEnv) (resp1 resp2 : HttpResp)
    (c : String) (h1 : postChat resp1 = .ok c)
    (h2 : genParsedValid env c = none) :
    (generate_intent_json env true resp1 resp2).calls = 2 ∧
    (∀ r : String, postChat resp2 = .ok r → env.tryParse r = none →
      (generate_intent_json env true resp1 resp2).result
        = .error repairFailedError) := by
  constructor
  · simp only [generate_intent_json, h1, h2]
    cases hp : postChat resp2 with
    | error e => simp
    | ok r => cases hq : env.tryParse r <;> simp [hq]
  · intro r hr hp
    simp [generate_intent_json, h1, h2, hr, hp]

/-- Witness for C1 at a concrete environment: a parser that accepts
nothing, so both the first response and the repair output are unparseable. -/
theorem C1_one_shot_repair_witness :
    (generate_intent_json ⟨fun _ => none, fun _ => false⟩ true
        (HttpResp.ok "a") (HttpResp.ok "b")).calls = 2 ∧
    (generate_intent_json ⟨fun _ => none, fun _ => false⟩ true
        (HttpResp.ok "a") (HttpResp.ok "b")).result
      = .error repairFailedError :=
  ⟨(C1_one_shot_repair ⟨fun _ => none, fun _ => false⟩
      (HttpResp.ok "a") (HttpResp.ok "b") "a" rfl rfl).1,
   (C1_one_shot_repair ⟨fun _ => none, fun _ => false⟩
      (HttpResp.ok "a") (HttpResp.ok "b") "a" rfl rfl).2 "b" rfl rfl⟩

/-- C2: when the model response is valid JSON that validates against the
target schema, `generate_intent_json` returns the parsed object unchanged
and makes exactly one model call — no repair — in either enforcement mode. -/
theorem C2_valid_response_returned_unchanged (env : GenEnv)
    (enforce_schema : Bool) (resp1 resp2 : HttpResp) (c : String) (p : Json)
    (h1 : postChat resp1 = .ok c) (h2 : env.tryParse c = some p)
    (h3 : env.validate p = true) :
    (generate_intent_json env enforce_schema resp1 resp2).result = .ok p ∧
    (generate_intent_json env enforce_schema resp1 resp2).calls = 1 := by
  constructor <;> simp [generate_intent_json, genParsedValid, h1, h2, h3]

/-- Witness for C2 at a concrete environment: the response parses to an
object that the schema accepts. -/
theorem C2_valid_response_returned_unchanged_witness :
    (generate_intent_json ⟨fun _ => some (Json.obj []), fun _ => true⟩ true
        (HttpResp.ok "x") (HttpResp.ok "y")).result = .ok (Json.obj []) ∧
    (generate_intent_json ⟨fun _ => some (Json.obj []), fun _ => true⟩ true
        (HttpResp.ok "x") (HttpResp.ok "y")).calls = 1 :=
  C2_valid_response_returned_unchanged ⟨fun _ => some (Json.obj []), fun _ => true⟩
    true (HttpResp.ok "x") (HttpResp.ok "y") "x" (Json.obj []) rfl rfl rfl

/-- C3 counterexample: with schema enforcement disabled, a response that
parses as JSON (`"[0]"`, as `json.loads` would) but fails schema validation
does NOT yield the best-effort parse: lines 177–181 of cerebras.py null the
parse out on validation failure, so the call raises
`RuntimeError("Model did not return valid JSON")`. -/
theorem C3_best_effort_counterexample :
    GenEnv.tryParse ⟨fun s => if s = "[0]" then some (Json.arr [Json.num 0]) else none,
        fun j => (validateSingle j).isOk⟩ "[0]" = some (Json.arr [Json.num 0]) ∧
    (validateSingle (Json.arr [Json.num 0])).isOk = false ∧
    (generate_intent_json
        ⟨fun s => if s = "[0]" then some (Json.arr [Json.num 0]) else none,
         fun j => (validateSingle j).isOk⟩ false
        (HttpResp.ok "[0]") (HttpResp.ok "y")).result
      = .error notValidJsonError :=
  ⟨rfl, rfl, rfl⟩

/-- C3 amended: with schema enforcement disabled, a response that parses as
JSON but fails schema validation makes `generate_intent_json` discard the
parse and fail with the not-valid-JSON error after the single model call; a
parsed object is returned only when it also validates. -/
theorem C3_amended_invalid_parse_discarded (env : GenEnv)
    (resp1 resp2 : HttpResp) (c : String) (p : Json)
    (h1 : postChat resp1 = .ok c) (h2 : env.tryParse c = some p)
    (h3 : env.validate p = false) :
    generate_intent_json env false resp1 resp2
      = ⟨.error notValidJsonError, 1⟩ := by
  simp [generate_intent_json, genParsedValid, h1, h2, h3]

/-- Witness for the amended C3 at the counterexample's concrete input. -/
theorem C3_amended_invalid_parse_discarded_witness :
    generate_intent_json
        ⟨fun s => if s = "[0]" then some (Json.arr [Json.num 0]) else none,
         fun j => (validateSingle j).isOk⟩ false
        (HttpResp.ok "[0]") (HttpResp.ok "y")
      = ⟨.error notValidJsonError, 1⟩ :=
  C3_amended_invalid_parse_discarded
    ⟨fun s => if s = "[0]" then some (Json.arr [Json.num 0]) else none,
     fun j => (validateSingle j).isOk⟩
    (HttpResp.ok "[0]") (HttpResp.ok "y") "[0]" (Json.arr [Json.num 0])
    rfl rfl rfl

/-! ## Claims about the intent validator and route -/

/-- C4: in permissive mode, a raw JSON object that fails validation never
fails the request: the permissive route records the raw payload for
diagnostics and returns the empty/default command, so the caller always
receives some intent. -/
theorem C4_permissive_fallback (raw : Json) (errs : List String)
    (h : validateFlexible raw = .error errs) :
    post_intent_permissive raw
      = ⟨.single emptyIntentCommand, some raw⟩ := by
  simp [post_intent_permissive, h]

/-- Witness for C4: `{"speed": "fast"}` fails permissive validation with a
field error naming `speed`, and the route answers with the empty fallback
command and the logged payload. -/
theorem C4_permissive_fallback_witness :
    validateFlexible (Json.obj [("speed", Json.str "fast")])
      = .error ["speed"] ∧
    post_intent_permissive (Json.obj [("speed", Json.str "fast")])
      = ⟨.single emptyIntentCommand,
         some (Json.obj [("speed", Json.str "fast")])⟩ :=
  ⟨rfl, C4_permissive_fallback (Json.obj [("speed", Json.str "fast")]) ["speed"] rfl⟩

/-- C5: the route's validation dispatch — an object whose `type` field is
`"multi"` is validated with the multi-command model (and a well-formed
command list of any length, including zero, validates as an ordered batch
of that length); an object lacking the discriminator is validated with the
single-command model. -/
theorem C5_multi_dispatch :
    (∀ fs : List (String × Json), jsonGet fs "type" = some (.str "multi") →
      validateIntent (.obj fs) = (validateMulti (.obj fs)).map Intent.multi) ∧
    (∀ raw : Json, isMultiTagged raw = false →
      validateIntent raw = (validateSingle raw).map Intent.single) ∧
    (∀ (cmds : List Json) (ss : List SingleIntent),
      cmds.mapM validateSingle = .ok ss →
      validateIntent (.obj [("type", .str "multi"), ("commands", .arr cmds)])
        = .ok (.multi ⟨ss⟩)) := by
  refine ⟨?_, ?_, ?_⟩
  · intro fs h
    simp [validateIntent, isMultiTagged, h]
  · intro raw h
    simp [validateIntent, h]
  · intro cmds ss h
    have hm : validateIntent (.obj [("type", .str "multi"), ("commands", .arr cmds)])
        = ((cmds.mapM validateSingle).map
            (fun l => (⟨l⟩ : MultiIntent))).map Intent.multi := rfl
    rw [hm, h]
    rfl

/-- Witness for C5: the zero-command batch is accepted as a multi intent,
and an undiscriminated object goes through single-command validation. -/
theorem C5_multi_dispatch_witness :
    validateIntent (.obj [("type", .str "multi"), ("commands", .arr [])])
      = .ok (.multi ⟨[]⟩) ∧
    validateIntent (Json.obj [])
      = (validateSingle (Json.obj [])).map Intent.single :=
  ⟨C5_multi_dispatch.2.2 [] [] rfl, C5_multi_dispatch.2.1 (Json.obj []) rfl⟩

/-! ## Claims about upstream error handling -/

/-- The generic upstream message never coincides with the rate-limit
message: the two strings diverge inside their common `"Cerebras API "`
prefix (`e` vs `r`). -/
theorem upstreamMsg_ne_rateLimitMsg (status : Nat) (body : String) :
    upstreamMsg status body ≠ rateLimitMsg := by
  intro h
  have h1 : ("Cerebras API error: ").data ++ (toString status ++ (" " ++ body)).data
      = rateLimitMsg.data := by
    have h0 := congrArg String.data h
    rwa [upstreamMsg, String.data_append] at h0
  have h2 : (("Cerebras API error: ").data ++
      (toString status ++ (" " ++ body)).data).take ("Cerebras API error: ").data.length
      = rateLimitMsg.data.take ("Cerebras API error: ").data.length := by
    rw [h1]
  rw [List.take_left] at h2
  exact absurd h2 (by decide)

/-- C6 counterexample: a rate-limited call (status 429) and a generic
upstream failure (status 500) raise exceptions of the same kind
(`RuntimeError`); only their message texts differ, so the two failures are
not distinguishable by kind. -/
theorem C6_same_error_kind_counterexample :
    postChat (HttpResp.err 429 "body")
      = .error ⟨"RuntimeError", rateLimitMsg⟩ ∧
    postChat (HttpResp.err 500 "body")
      = .error ⟨"RuntimeError", upstreamMsg 500 "body"⟩ ∧
    errKind (postChat (HttpResp.err 429 "body"))
      = errKind (postChat (HttpResp.err 500 "body")) :=
  ⟨rfl, rfl, rfl⟩

/-- C6 amended: a rate-limit status is distinguishable from any other
non-success status by message text — 429 always produces the fixed
rate-limit message and every other status the status+body message, and the
two messages never coincide — but not by exception kind: both failures are
raised as `RuntimeError`. -/
theorem C6_amended_distinguishable_by_message (status : Nat) (body : String)
    (h : status ≠ 429) :
    postChat (HttpResp.err 429 body)
      = .error ⟨"RuntimeError", rateLimitMsg⟩ ∧
    postChat (HttpResp.err status body)
      = .error ⟨"RuntimeError", upstreamMsg status body⟩ ∧
    upstreamMsg status body ≠ rateLimitMsg ∧
    errKind (postChat (HttpResp.err status body))
      = errKind (postChat (HttpResp.err 429 body)) := by
  refine ⟨by simp [postChat], by simp [postChat, h], upstreamMsg_ne_rateLimitMsg status body, ?_⟩
  simp [postChat, errKind, h]

/-- Witness for the amended C6 at status 500. -/
theorem C6_amended_distinguishable_by_message_witness :
    postChat (HttpResp.err 429 "b") = .error ⟨"RuntimeError", rateLimitMsg⟩ ∧
    postChat (HttpResp.err 500 "b")
      = .error ⟨"RuntimeError", upstreamMsg 500 "b"⟩ ∧
    upstreamMsg 500 "b" ≠ rateLimitMsg ∧
    errKind (postChat (HttpResp.err 500 "b"))
      = errKind (postChat (HttpResp.err 429 "b")) :=
  C6_amended_distinguishable_by_message 500 "b" (by decide)

/-! ## Claims about the session state machine and transcription engines -/

/-- C7: a "start" followed by "stop" with no audio pushed in between
replies `ready` then `final ""`, with zero transcription-model calls; and
the batch engine's finalize on an empty buffer returns `""` without calling
the model. -/
theorem C7_empty_segment_no_model_call (T : List Nat → String) (sr : Int)
    (lang : String) :
    (ws_run T ⟨none⟩ [startMsg sr lang, stopMsg]).2
      = ([.ready, .final ""], 0) ∧
    (∀ e : AsrEngine, e.pcm = [] →
      e.finalize_segment T = ⟨"", { e with pcm := [] }, 0⟩) := by
  constructor
  · simp [ws_run, ws_step, startMsg, stopMsg, getMType, jsonGet,
          AsrEngine.new, AsrEngine.finalize_segment]
  · intro e h
    simp [AsrEngine.finalize_segment, h]

/-- Witness for C7 at a concrete transcriber, sample rate and language. -/
theorem C7_empty_segment_no_model_call_witness :
    (ws_run (fun _ => "t") ⟨none⟩ [startMsg 16000 "en", stopMsg]).2
      = ([.ready, .final ""], 0) ∧
    AsrEngine.finalize_segment (fun _ => "t") ⟨16000, "en", []⟩
      = ⟨"", ⟨16000, "en", []⟩, 0⟩ :=
  ⟨(C7_empty_segment_no_model_call (fun _ => "t") 16000 "en").1,
   (C7_empty_segment_no_model_call (fun _ => "t") 16000 "en").2
     ⟨16000, "en", []⟩ rfl⟩

/-- C8 counterexample: a second "start" does NOT finalize the previous
engine — the source only calls `close()`, a no-op.  With audio `[1, 2]`
buffered, the run start / push / start performs zero transcription-model
calls, whereas finalizing that engine performs one; so no internal
finalization of the discarded audio takes place. -/
theorem C8_no_internal_finalize_counterexample :
    (ws_run (fun _ => "HEARD") ⟨none⟩
        [startMsg 16000 "en", .binary [1, 2], startMsg 16000 "en"]).2.2 = 0 ∧
    (AsrEngine.finalize_segment (fun _ => "HEARD")
        ⟨16000, "en", [1, 2]⟩).modelCalls = 1 ∧
    (AsrEngine.finalize_segment (fun _ => "HEARD")
        ⟨16000, "en", [1, 2]⟩).text = "HEARD" :=
  ⟨rfl, rfl, rfl⟩

/-- C8 amended: a second "start" without an intervening "stop" closes and
discards the previous engine without finalizing it (no transcription-model
call is made on the discarded audio) and creates a fresh engine with an
empty buffer, so audio pushed before the second "start" never appears in
the transcript returned by the next "stop": that transcript is a function
of the audio pushed after the second "start" alone. -/
theorem C8_amended_discard_without_finalize (T : List Nat → String)
    (a b : List Nat) (sr sr' : Int) (lang lang' : String) :
    (ws_run T ⟨none⟩ [startMsg sr lang, .binary a, startMsg sr' lang']).2.2
      = 0 ∧
    (ws_run T ⟨none⟩ [startMsg sr lang, .binary a, startMsg sr' lang',
        .binary b, stopMsg]).2.1
      = [.ready, .ready,
         .final (AsrEngine.finalize_segment T ⟨sr', lang', b⟩).text] := by
  constructor
  · simp [ws_run, ws_step, startMsg, getMType, jsonGet, AsrEngine.new,
          AsrEngine.push_audio]
  · simp [ws_run, ws_step, startMsg, stopMsg, getMType, jsonGet,
          AsrEngine.new, AsrEngine.push_audio, getSampleRate, getLanguage,
          pyInt, jsonGet]

/-- C9: the streaming-recognizer engine's finalize resets the recognizer
state and clears the buffer on every path — whether the final hypothesis is
extracted successfully, the JSON parse of `FinalResult()` fails, or the
text extraction raises. -/
theorem C9_finalize_always_resets (finalResult : List Nat → String)
    (tryLoads : String → Option Json) (e : VoskEngine) :
    (VoskEngine.finalize_segment finalResult tryLoads e).2
      = ⟨[], []⟩ := by
  cases h : tryLoads (finalResult e.recState) <;>
    simp [VoskEngine.finalize_segment, h]

/-- C10: every success response of the `/intent` route carries
`source = "llm"`, over every generator outcome — including results of the
repair round-trip — and every validation outcome. -/
theorem C10_source_always_llm (tryParse : String → Option Json)
    (enforce_schema : Bool) (resp1 resp2 : HttpResp) (i : Intent)
    (src : Source)
    (h : post_intent tryParse enforce_schema resp1 resp2 = .success i src) :
    src = Source.llm := by
  simp only [post_intent] at h
  split at h
  · exact RouteResult.noConfusion h
  · split at h
    · injection h with h1 h2
      exact h2.symm
    · exact RouteResult.noConfusion h

/-- Witness for C10: a concrete request in which the model returns a valid
strict single command, so the route succeeds — with source `llm`. -/
theorem C10_source_always_llm_witness :
    post_intent
        (fun _ => some (Json.obj
          [("targets", Json.arr [Json.str "alpha"]),
           ("action", Json.str "hold"),
           ("formation", Json.str "none"),
           ("direction", Json.str "none"),
           ("speed", Json.num 3)]))
        true (HttpResp.ok "x") (HttpResp.ok "y")
      = .success (Intent.single ⟨["alpha"], "hold", "none", "none", 3,
          none, none, none⟩) Source.llm ∧
    Source.llm = Source.llm :=
  ⟨rfl,
   C10_source_always_llm
     (fun _ => some (Json.obj
       [("targets", Json.arr [Json.str "alpha"]),
        ("action", Json.str "hold"),
        ("formation", Json.str "none"),
        ("direction", Json.str "none"),
        ("speed", Json.num 3)]))
     true (HttpResp.ok "x") (HttpResp.ok "y")
     (Intent.single ⟨["alpha"], "hold", "none", "none", 3, none, none, none⟩)
     Source.llm rfl⟩

end Eigenriver
